import Mathlib

/-!
Verification of the progress-and-submission core of the aiboost backend.

The backend stores users, courses, chapters, per-(user, course) progress
records and per-chapter work submissions in a relational database and
mutates them through Express route handlers.  This file embeds those
handlers as pure functions over an explicit database state:

* `enroll`        — POST /enroll/:courseId            (handlers/courses.js)
* `unenroll`      — DELETE /:courseId/enrolled_users/:userId (supabase variant)
* `validateChapter` — POST /:courseId/validate-chapter (handlers/courses.js)
* `getProgress`   — GET /:courseId/progress           (handlers/courses.js)
* `submitLink`    — POST /:courseId/chapters/:chapterId/submit-link
* `updateSubmission` — PUT /submissions/:submissionId
* `assignMentor`  — POST /submissions/:submissionId/assign (supabase variant)
* `reviewSubmission` — PUT /mentor/submissions/:submissionId (handlers/Registration.js)
* `getStatus`     — GET /:courseId/chapters/:chapterId/submission-status

Database rows are structures, tables are lists, `find?` mirrors the
`findFirst` / `.single()` lookups, and `List.map` with a row-matching guard
mirrors keyed `update` statements.  JavaScript numbers are modelled as
`Nat`/`Int`; `Math.round` on the ratio computed by the progress handlers is
modelled exactly on rationals by `jsRound`.  A storage write that may fail
mid-handler is modelled by an explicit Boolean fault parameter where a claim
depends on it.
-/

namespace AiBoost

/-- Stored user row: identity, unique email, and the `enrolled_courses`
integer array of the schema. -/
structure UserRec where
  id : Nat
  email : String
  enrolled_courses : List Nat
  deriving DecidableEq, Repr

/-- Stored course row: identity, the ids of its chapters in position order,
and the `enrolled_count` aggregate (a plain SQL INTEGER, so it can go
negative). -/
structure Course where
  id : Nat
  chapters : List Nat
  enrolled_count : Int
  deriving DecidableEq, Repr

/-- Stored `UserProgress` row (unique on `(user_id, course_id)` by the
migration's index): current chapter pointer and the `completed_chapters`
integer array. -/
structure ProgressRec where
  user_id : Nat
  course_id : Nat
  current_chapter_id : Nat
  completed_chapters : List Nat
  deriving DecidableEq, Repr

/-- Submission review states of the `SubmissionStatus` enum, together with
`NEEDS_REVISION` which the mentor routes also read and write. -/
inductive SubStatus where
  | PENDING
  | REVIEWING
  | ACCEPTED
  | REJECTED
  | NEEDS_REVISION
  deriving DecidableEq, Repr

/-- Stored submission row: owner, course, chapter, work link, review status,
optional assigned mentor and review comment, and the update timestamp. -/
structure Submission where
  id : Nat
  user_id : Nat
  course_id : Nat
  chapter_id : Nat
  link : String
  status : SubStatus
  mentor_id : Option Nat
  mentor_comment : Option String
  updated_at : Nat
  deriving DecidableEq, Repr

/-- Whole database state: the four tables the core touches plus the
autoincrement counter for submission ids. -/
structure DB where
  users : List UserRec
  courses : List Course
  progresses : List ProgressRec
  submissions : List Submission
  nextSubmissionId : Nat
  deriving DecidableEq, Repr

/-- Row guard: user row with the given primary key. -/
def isUserId (userId : Nat) (u : UserRec) : Bool :=
  u.id == userId

/-- Row guard: user row with the given (unique) email. -/
def isEmail (email : String) (u : UserRec) : Bool :=
  u.email == email

/-- Row guard: course row with the given primary key. -/
def isCourseId (courseId : Nat) (c : Course) : Bool :=
  c.id == courseId

/-- Row guard: progress row of the given (user, course) pair. -/
def isProgressKey (userId courseId : Nat) (p : ProgressRec) : Bool :=
  p.user_id == userId && p.course_id == courseId

/-- Row guard: submission row with the given primary key. -/
def isSubmissionId (submissionId : Nat) (s : Submission) : Bool :=
  s.id == submissionId

/-- Row guard of `updateMany({where: {id, user_id}})`: submission with the
given id owned by the given user. -/
def isOwnSubmission (submissionId userId : Nat) (s : Submission) : Bool :=
  s.id == submissionId && s.user_id == userId

/-- Row guard of the assignment compare-and-set: submission with the given
id whose `mentor_id` is still null. -/
def isUnassigned (submissionId : Nat) (s : Submission) : Bool :=
  s.id == submissionId && s.mentor_id == none

/-- Row guard of the submission-status lookup on (user, course, chapter). -/
def isStatusKey (userId courseId chapterId : Nat) (s : Submission) : Bool :=
  s.user_id == userId && s.course_id == courseId && s.chapter_id == chapterId

/-- Lookup of a user row by primary key (`.eq('id', userId).single()`). -/
def findUserById (db : DB) (userId : Nat) : Option UserRec :=
  db.users.find? (isUserId userId)

/-- Lookup of a user row by the unique email (`findUnique({where: {email}})`). -/
def findUserByEmail (db : DB) (email : String) : Option UserRec :=
  db.users.find? (isEmail email)

/-- Lookup of a course row by primary key. -/
def findCourse (db : DB) (courseId : Nat) : Option Course :=
  db.courses.find? (isCourseId courseId)

/-- Lookup of the progress row for a (user, course) pair
(`userProgress.findFirst` on both keys). -/
def findProgress (db : DB) (userId courseId : Nat) : Option ProgressRec :=
  db.progresses.find? (isProgressKey userId courseId)

/-- Lookup of a submission row by primary key. -/
def findSubmission (db : DB) (submissionId : Nat) : Option Submission :=
  db.submissions.find? (isSubmissionId submissionId)

/-- Count of chapters of a course (`chapter.count({where: {course_id}})`);
0 for an unknown course. -/
def totalChapters (db : DB) (courseId : Nat) : Nat :=
  match findCourse db courseId with
  | some c => c.chapters.length
  | none => 0

/-- First chapter of a course in stored order, when the course and a chapter
exist.  Used only to state the spec's "first chapter" default. -/
def firstChapter (db : DB) (courseId : Nat) : Option Nat :=
  (findCourse db courseId).bind (fun c => c.chapters.head?)

/-- Exact model of `Math.round(num / den)` for nonnegative operands: halves
round up, matching JavaScript.  Meaningful for `den > 0`. -/
def jsRound (num den : Nat) : Nat :=
  (2 * num + den) / (2 * den)

/-- Outcome of the enroll handler. -/
inductive EnrollResult where
  | courseNotFound
  | userNotFound
  | alreadyEnrolled
  | storageFailure
  | enrolled
  deriving DecidableEq, Repr

/-- POST /enroll/:courseId (handlers/courses.js).  Looks up the course and
the user by email, rejects an already-enrolled user, then performs two
separate writes: push the course id onto the user's `enrolled_courses`, then
increment the course's `enrolled_count`.  The two writes are not wrapped in
a transaction, so a storage failure of the second write (modelled by
`countUpdateFails`) leaves the first one in place. -/
def enroll (db : DB) (courseId : Nat) (email : String) (countUpdateFails : Bool) :
    EnrollResult × DB :=
  match findCourse db courseId with
  | none => (.courseNotFound, db)
  | some _ =>
    match findUserByEmail db email with
    | none => (.userNotFound, db)
    | some user =>
      if courseId ∈ user.enrolled_courses then (.alreadyEnrolled, db)
      else
        let db1 : DB :=
          { db with
            users := db.users.map (fun u =>
              if isUserId user.id u then
                { u with enrolled_courses := u.enrolled_courses ++ [courseId] }
              else u) }
        if countUpdateFails then (.storageFailure, db1)
        else
          (.enrolled,
            { db1 with
              courses := db1.courses.map (fun c =>
                if isCourseId courseId c then
                  { c with enrolled_count := c.enrolled_count + 1 }
                else c) })

/-- Outcome of the unenroll handler. -/
inductive UnenrollResult where
  | userNotFound
  | courseNotFound
  | ok
  deriving DecidableEq, Repr

/-- DELETE /:courseId/enrolled_users/:userId (supabase variant).  Filters the
course id out of the user's `enrolled_courses` and writes the user row; then
reads the course row and unconditionally writes `enrolled_count - 1` — even
when the user was not enrolled.  A missing course makes the handler throw
after the user row was already written. -/
def unenroll (db : DB) (courseId userId : Nat) : UnenrollResult × DB :=
  match findUserById db userId with
  | none => (.userNotFound, db)
  | some user =>
    let db1 : DB :=
      { db with
        users := db.users.map (fun u =>
          if isUserId user.id u then
            { u with enrolled_courses := u.enrolled_courses.filter (fun i => i != courseId) }
          else u) }
    match findCourse db1 courseId with
    | none => (.courseNotFound, db1)
    | some course =>
      (.ok,
        { db1 with
          courses := db1.courses.map (fun c =>
            if isCourseId courseId c then
              { c with enrolled_count := course.enrolled_count - 1 }
            else c) })

/-- Outcome of the validate-chapter handler. -/
inductive ValidateResult where
  | scoreTooLow
  | ok
  deriving DecidableEq, Repr

/-- POST /:courseId/validate-chapter (handlers/courses.js).  Rejects a score
below 80 before touching storage; otherwise upserts the progress row keyed on
`(studentId, courseId)`: the update branch sets the current chapter and
appends the chapter id to `completed_chapters` with an unconditional array
push, the create branch starts the row with `[chapterId]`. -/
def validateChapter (db : DB) (courseId chapterId studentId : Nat) (score : Int) :
    ValidateResult × DB :=
  if score < 80 then (.scoreTooLow, db)
  else
    match findProgress db studentId courseId with
    | some _ =>
      (.ok,
        { db with
          progresses := db.progresses.map (fun p =>
            if isProgressKey studentId courseId p then
              { p with
                current_chapter_id := chapterId,
                completed_chapters := p.completed_chapters ++ [chapterId] }
            else p) })
    | none =>
      (.ok,
        { db with
          progresses := db.progresses ++
            [{ user_id := studentId, course_id := courseId,
               current_chapter_id := chapterId, completed_chapters := [chapterId] }] })

/-- Response shape of the progress read handler. -/
structure ProgressData where
  current_chapter_id : Nat
  completed_chapters : List Nat
  total_chapters : Nat
  percentage : Nat
  deriving DecidableEq, Repr

/-- GET /:courseId/progress (handlers/courses.js).  Counts the chapters,
looks up the progress row, and returns a virtual default record with
`current_chapter_id = 1`, no completed chapters and percentage 0 when no row
exists; otherwise returns the stored fields with
`Math.round(completed.length / total * 100)` (0 when the course has no
chapters).  The handler never fails on a missing row. -/
def getProgress (db : DB) (userId courseId : Nat) : ProgressData :=
  let total := totalChapters db courseId
  match findProgress db userId courseId with
  | none =>
    { current_chapter_id := 1, completed_chapters := [],
      total_chapters := total, percentage := 0 }
  | some p =>
    { current_chapter_id := p.current_chapter_id,
      completed_chapters := p.completed_chapters,
      total_chapters := total,
      percentage :=
        if total > 0 then jsRound (100 * p.completed_chapters.length) total else 0 }

/-- POST /:courseId/chapters/:chapterId/submit-link (handlers/courses.js).
Creates a submission row with status PENDING for the given link; the handler
performs no validation of the link at all.  Returns the created row and the
new state. -/
def submitLink (db : DB) (userId courseId chapterId : Nat) (link : String) (now : Nat) :
    Submission × DB :=
  let s : Submission :=
    { id := db.nextSubmissionId, user_id := userId, course_id := courseId,
      chapter_id := chapterId, link := link, status := .PENDING,
      mentor_id := none, mentor_comment := none, updated_at := now }
  (s, { db with submissions := db.submissions ++ [s],
                nextSubmissionId := db.nextSubmissionId + 1 })

/-- Outcome of the submission update handler. -/
inductive UpdateSubResult where
  | notFound
  | ok
  deriving DecidableEq, Repr

/-- PUT /submissions/:submissionId (handlers/courses.js).  `updateMany` on
`id = submissionId AND user_id = userId` setting only `link`,
`status = PENDING` and `updated_at`; 404 when no row matched. -/
def updateSubmission (db : DB) (submissionId userId : Nat) (link : String) (now : Nat) :
    UpdateSubResult × DB :=
  if db.submissions.any (isOwnSubmission submissionId userId) then
    (.ok,
      { db with
        submissions := db.submissions.map (fun s =>
          if isOwnSubmission submissionId userId s then
            { s with link := link, status := .PENDING, updated_at := now }
          else s) })
  else (.notFound, db)

/-- Outcome of the mentor assignment handler. -/
inductive AssignResult where
  | conflict
  | ok
  deriving DecidableEq, Repr

/-- POST /submissions/:submissionId/assign (supabase variant).  A
compare-and-set: `update({mentor_id}).eq('id', id).is('mentor_id', null)`
writes the mentor only into a row whose `mentor_id` is still null, and the
trailing `.single()` turns a zero-row update into an error, leaving the
state unchanged. -/
def assignMentor (db : DB) (submissionId mentorId : Nat) : AssignResult × DB :=
  if db.submissions.any (isUnassigned submissionId) then
    (.ok,
      { db with
        submissions := db.submissions.map (fun s =>
          if isUnassigned submissionId s then
            { s with mentor_id := some mentorId }
          else s) })
  else (.conflict, db)

/-- Outcome of the mentor review handler. -/
inductive ReviewResult where
  | notFound
  | ok
  deriving DecidableEq, Repr

/-- PUT /mentor/submissions/:submissionId (handlers/Registration.js).  A
keyed `submission.update` writing exactly the `status` and `mentor_comment`
fields of the row; it throws when the row does not exist.  No other table is
touched: in particular the handler performs no progress update on an
ACCEPTED decision. -/
def reviewSubmission (db : DB) (submissionId : Nat) (status : SubStatus)
    (comment : Option String) : ReviewResult × DB :=
  if db.submissions.any (isSubmissionId submissionId) then
    (.ok,
      { db with
        submissions := db.submissions.map (fun s =>
          if isSubmissionId submissionId s then
            { s with status := status, mentor_comment := comment }
          else s) })
  else (.notFound, db)

/-- GET /:courseId/chapters/:chapterId/submission-status
(handlers/courses.js): `findFirst` on (user, course, chapter); `none` plays
the role of the handler's NOT_SUBMITTED answer. -/
def getStatus (db : DB) (userId courseId chapterId : Nat) : Option Submission :=
  db.submissions.find? (isStatusKey userId courseId chapterId)

/-! ### Concrete states used by counterexamples and witnesses -/

/-- Course 1 with one chapter and count 0, and one user not yet enrolled. -/
def dbOneCourse : DB :=
  { users := [{ id := 5, email := "a", enrolled_courses := [] }],
    courses := [{ id := 1, chapters := [10], enrolled_count := 0 }],
    progresses := [], submissions := [], nextSubmissionId := 1 }

/-- Course 1 with two chapters; no progress rows yet. -/
def dbTwoChap : DB :=
  { users := [],
    courses := [{ id := 1, chapters := [1, 2], enrolled_count := 0 }],
    progresses := [], submissions := [], nextSubmissionId := 1 }

/-- Course 1 with a single chapter; no progress rows yet. -/
def dbOneChap : DB :=
  { users := [],
    courses := [{ id := 1, chapters := [1], enrolled_count := 0 }],
    progresses := [], submissions := [], nextSubmissionId := 1 }

/-- Course 2 whose first chapter has id 5, and no progress rows. -/
def dbShifted : DB :=
  { users := [],
    courses := [{ id := 2, chapters := [5, 6], enrolled_count := 0 }],
    progresses := [], submissions := [], nextSubmissionId := 1 }

/-- Course 1 with `enrolled_count` 0 and a user who is not enrolled in it. -/
def dbUnenroll : DB :=
  { users := [{ id := 7, email := "u", enrolled_courses := [] }],
    courses := [{ id := 1, chapters := [], enrolled_count := 0 }],
    progresses := [], submissions := [], nextSubmissionId := 1 }

/-- Student 7 with an empty progress row for course 1 (two chapters) and a
pending submission (id 3) for chapter 2 with an assigned mentor. -/
def dbReview : DB :=
  { users := [],
    courses := [{ id := 1, chapters := [1, 2], enrolled_count := 0 }],
    progresses := [{ user_id := 7, course_id := 1, current_chapter_id := 1,
                     completed_chapters := [] }],
    submissions := [{ id := 3, user_id := 7, course_id := 1, chapter_id := 2,
                      link := "w", status := .PENDING, mentor_id := some 9,
                      mentor_comment := none, updated_at := 0 }],
    nextSubmissionId := 4 }

/-- One pending submission (id 3, user 7) with no mentor assigned yet. -/
def dbAssign : DB :=
  { users := [], courses := [], progresses := [],
    submissions := [{ id := 3, user_id := 7, course_id := 1, chapter_id := 2,
                      link := "w", status := .PENDING, mentor_id := none,
                      mentor_comment := none, updated_at := 0 }],
    nextSubmissionId := 4 }

/-! ### Helper lemmas -/

/-- Searching a mapped table commutes with the search when the rewrite kept
the searched key intact. -/
theorem find?_map_pres {α : Type} (p : α → Bool) (f : α → α) (l : List α)
    (hpf : ∀ x, p (f x) = p x) :
    (l.map f).find? p = (l.find? p).map f := by
  rw [List.find?_map]
  have h : p ∘ f = p := by
    funext x
    exact hpf x
  rw [h]

/-- Rounded ratio of zero completed chapters is zero. -/
theorem jsRound_zero (t : Nat) (ht : 0 < t) : jsRound 0 t = 0 := by
  unfold jsRound
  exact Nat.div_eq_of_lt (by omega)

/-- Rounded percentage stays within the scale while the completed list is no
longer than the chapter list. -/
theorem jsRound_le_100 (len t : Nat) (hle : len ≤ t) (ht : 0 < t) :
    jsRound (100 * len) t ≤ 100 := by
  unfold jsRound
  have h1 : 2 * (100 * len) + t ≤ 201 * t := by omega
  have h2 : (201 * t) / (2 * t) < 101 := by
    rw [Nat.div_lt_iff_lt_mul (by omega)]
    omega
  calc (2 * (100 * len) + t) / (2 * t) ≤ (201 * t) / (2 * t) := Nat.div_le_div_right h1
    _ ≤ 100 := Nat.lt_succ_iff.mp h2

/-! ### Claim C1 -/

/-- Claim C1, counterexample: reviewing submission 3 (student 7, course 1,
chapter 2) with decision ACCEPTED makes `getStatus` report ACCEPTED, but no
Chapter Validator runs: the student's progress row still has an empty
`completed_chapters`, so chapter 2 is not marked complete. -/
theorem review_accept_no_validator_cex :
    (reviewSubmission dbReview 3 .ACCEPTED (some "good")).1 = .ok
    ∧ (getStatus (reviewSubmission dbReview 3 .ACCEPTED (some "good")).2 7 1 2).map
        (fun s => s.status) = some .ACCEPTED
    ∧ (findProgress (reviewSubmission dbReview 3 .ACCEPTED (some "good")).2 7 1).map
        (fun p => p.completed_chapters) = some []
    ∧ 2 ∉ (getProgress (reviewSubmission dbReview 3 .ACCEPTED (some "good")).2 7 1).completed_chapters := by
  decide

/-! ### Claim C4 -/

/-- Claim C4, failing run: course 1 has chapters [1, 2]; validating chapter
1 with score 85 once stores completed_chapters = [1] and percentage 50, and
validating the very same chapter again appends a duplicate — the stored
array becomes [1, 1] and the percentage jumps to 100, so the score-based
validation path is not idempotent. -/
theorem validateChapter_not_idempotent :
    (getProgress (validateChapter dbTwoChap 1 1 7 85).2 7 1).completed_chapters = [1]
    ∧ (getProgress (validateChapter dbTwoChap 1 1 7 85).2 7 1).percentage = 50
    ∧ (getProgress (validateChapter (validateChapter dbTwoChap 1 1 7 85).2 1 1 7 85).2
        7 1).completed_chapters = [1, 1]
    ∧ (getProgress (validateChapter (validateChapter dbTwoChap 1 1 7 85).2 1 1 7 85).2
        7 1).percentage = 100 := by
  decide

/-! ### Claim C5 -/

/-- Claim C5, counterexample: in a reachable state — course 1 has a single
chapter and the same chapter was score-validated twice — `getProgress`
returns percentage 200, outside [0, 100]. -/
theorem percentage_above_100_cex :
    (getProgress (validateChapter (validateChapter dbOneChap 1 1 7 85).2 1 1 7 85).2
        7 1).percentage = 200
    ∧ ¬ (getProgress (validateChapter (validateChapter dbOneChap 1 1 7 85).2 1 1 7 85).2
        7 1).percentage ≤ 100 := by
  decide

/-! ### Claim C6 -/

/-- Claim C6, counterexample: course 2's first chapter has id 5, yet the
virtual default progress returned for a user with no record points at the
constant chapter id 1, not at the course's first chapter. -/
theorem default_progress_constant_one_cex :
    findProgress dbShifted 7 2 = none
    ∧ firstChapter dbShifted 2 = some 5
    ∧ (getProgress dbShifted 7 2).current_chapter_id = 1
    ∧ (getProgress dbShifted 7 2).current_chapter_id ≠ 5 := by
  decide

/-! ### Claim C2 -/

/-- Claim C2, counterexample: with the course lookup and duplicate check
passed, the handler writes the user row first and the course counter second
with no transaction; a storage failure of the second write leaves the user
enrolled while `enrolled_count` still reads 0 — partial state on failure,
so the two mutations are not atomic. -/
theorem enroll_partial_state_cex :
    (enroll dbOneCourse 1 "a" true).1 = .storageFailure
    ∧ (findUserByEmail (enroll dbOneCourse 1 "a" true).2 "a").map
        (fun u => u.enrolled_courses) = some [1]
    ∧ (findCourse (enroll dbOneCourse 1 "a" true).2 1).map
        (fun c => c.enrolled_count) = some 0 := by
  decide

/-! ### Claim C8 -/

/-- Claim C8, counterexample: submitting an empty link does not fail with a
validation error — the handler performs no link validation and happily
creates a PENDING submission whose link is the empty string. -/
theorem submitLink_empty_link_cex :
    (submitLink dbAssign 7 1 2 "" 5).1.link = ""
    ∧ (submitLink dbAssign 7 1 2 "" 5).1.status = .PENDING
    ∧ (submitLink dbAssign 7 1 2 "" 5).2.submissions
        = dbAssign.submissions ++ [(submitLink dbAssign 7 1 2 "" 5).1] := by
  decide

/-- Claim C8, amended: the submit-link handler validates nothing — for every
link, the empty string included, it appends a new submission for that
(user, course, chapter) with status PENDING and the given link stored
verbatim. -/
theorem submitLink_creates_pending (db : DB) (userId courseId chapterId : Nat)
    (link : String) (now : Nat) :
    (submitLink db userId courseId chapterId link now).1.status = .PENDING
    ∧ (submitLink db userId courseId chapterId link now).1.link = link
    ∧ (submitLink db userId courseId chapterId link now).1.user_id = userId
    ∧ (submitLink db userId courseId chapterId link now).1.course_id = courseId
    ∧ (submitLink db userId courseId chapterId link now).1.chapter_id = chapterId
    ∧ (submitLink db userId courseId chapterId link now).2.submissions
        = db.submissions ++ [(submitLink db userId courseId chapterId link now).1] :=
  ⟨rfl, rfl, rfl, rfl, rfl, rfl⟩

/-! ### Claim C9 -/

/-- Claim C9, failing run: course 1 has `enrolled_count` 0 and user 7 is not
enrolled in it; the unenroll handler still decrements unconditionally and
stores `enrolled_count = -1`, driving the counter below zero. -/
theorem unenroll_negative_count :
    (findUserById dbUnenroll 7).map (fun u => u.enrolled_courses) = some []
    ∧ (findCourse dbUnenroll 1).map (fun c => c.enrolled_count) = some 0
    ∧ (unenroll dbUnenroll 1 7).1 = .ok
    ∧ (findCourse (unenroll dbUnenroll 1 7).2 1).map
        (fun c => c.enrolled_count) = some (-1) := by
  decide



/-- Claim C3: the quiz-path validator fails with the score-too-low error and
leaves the state untouched for every score strictly below 80; for every
score of at least 80 it succeeds and the chapter lands in the student's
`completed_chapters` for that course. -/
theorem validateByScore_spec (db : DB) (courseId chapterId studentId : Nat) (score : Int) :
    (score < 80 → validateChapter db courseId chapterId studentId score = (.scoreTooLow, db))
    ∧ (80 ≤ score →
        (validateChapter db courseId chapterId studentId score).1 = .ok
        ∧ ∃ p, findProgress (validateChapter db courseId chapterId studentId score).2
                 studentId courseId = some p
            ∧ chapterId ∈ p.completed_chapters) := by
  constructor
  · intro hlow
    simp [validateChapter, hlow]
  · intro hok
    have hnot : ¬ score < 80 := not_lt.mpr hok
    cases hp : findProgress db studentId courseId with
    | none =>
      refine ⟨by simp [validateChapter, hnot, hp], ?_⟩
      refine ⟨{ user_id := studentId, course_id := courseId,
                current_chapter_id := chapterId, completed_chapters := [chapterId] },
              ?_, by simp⟩
      simp only [validateChapter, if_neg hnot, hp]
      show (db.progresses ++ _).find? (isProgressKey studentId courseId) = _
      rw [List.find?_append, show db.progresses.find? (isProgressKey studentId courseId)
            = none from hp]
      simp [isProgressKey]
    | some p =>
      have hkey : isProgressKey studentId courseId p = true := List.find?_some hp
      refine ⟨by simp [validateChapter, hnot, hp], ?_⟩
      refine ⟨{ p with current_chapter_id := chapterId, completed_chapters := p.completed_chapters ++ [chapterId] }, ?_, by simp⟩
      simp only [validateChapter, if_neg hnot, hp]
      show (db.progresses.map _).find? (isProgressKey studentId courseId) = _
      rw [find?_map_pres]
      · rw [show db.progresses.find? (isProgressKey studentId courseId) = some p from hp]
        simp [hkey]
      · intro q
        unfold isProgressKey
        by_cases h1 : q.user_id = studentId <;> by_cases h2 : q.course_id = courseId <;>
          simp [h1, h2]

/-- Claim C1, amended: an ACCEPTED review updates exactly the submission's
status (and comment) — every submission with the reviewed id ends up
ACCEPTED — while the progress table is left completely unchanged: no
Chapter Validator promotion happens. -/
theorem review_accept_leaves_progress (db : DB) (submissionId : Nat) (comment : Option String) :
    ((reviewSubmission db submissionId .ACCEPTED comment).2).progresses = db.progresses
    ∧ ∀ s ∈ ((reviewSubmission db submissionId .ACCEPTED comment).2).submissions,
        s.id = submissionId → s.status = .ACCEPTED := by
  by_cases hc : db.submissions.any (isSubmissionId submissionId) = true
  · have heq : reviewSubmission db submissionId .ACCEPTED comment
        = (.ok, { db with submissions := db.submissions.map (fun s =>
            if isSubmissionId submissionId s then
              { s with status := .ACCEPTED, mentor_comment := comment }
            else s) }) := by
      unfold reviewSubmission
      rw [if_pos hc]
    rw [heq]
    refine ⟨rfl, ?_⟩
    intro s hs hid
    obtain ⟨t, ht, rfl⟩ := List.mem_map.mp hs
    by_cases hts : isSubmissionId submissionId t = true
    · simp [hts]
    · simp [hts] at hid
      exact absurd (by simp [isSubmissionId, hid]) hts
  · have heq : reviewSubmission db submissionId .ACCEPTED comment = (.notFound, db) := by
      unfold reviewSubmission
      rw [if_neg hc]
    rw [heq]
    refine ⟨rfl, ?_⟩
    intro s hs hid
    exact absurd (List.any_eq_true.mpr ⟨s, hs, by simp [isSubmissionId, hid]⟩) hc

/-- Claim C1 witness: at the concrete review state the theorem yields the
unchanged progress table. -/
theorem review_accept_leaves_progress_witness :
    ((reviewSubmission dbReview 3 .ACCEPTED (some "good")).2).progresses = dbReview.progresses :=
  (review_accept_leaves_progress dbReview 3 (some "good")).1

/-- Claim C6, amended: the progress read never fails — with no stored row it
answers the fixed virtual default (current chapter constant 1, empty
completed set, percentage 0), and with a stored row it returns the stored
fields together with the rounded percentage. -/
theorem getProgress_spec (db : DB) (userId courseId : Nat) :
    (findProgress db userId courseId = none →
        getProgress db userId courseId =
          { current_chapter_id := 1, completed_chapters := [],
            total_chapters := totalChapters db courseId, percentage := 0 })
    ∧ (∀ p, findProgress db userId courseId = some p →
        getProgress db userId courseId =
          { current_chapter_id := p.current_chapter_id,
            completed_chapters := p.completed_chapters,
            total_chapters := totalChapters db courseId,
            percentage :=
              if totalChapters db courseId > 0 then
                jsRound (100 * p.completed_chapters.length) (totalChapters db courseId)
              else 0 }) := by
  constructor
  · intro h
    simp [getProgress, h]
  · intro p h
    simp [getProgress, h]

/-- Claim C6 witness: the default answer at the concrete no-record state. -/
theorem getProgress_spec_witness :
    getProgress dbShifted 7 2 =
      { current_chapter_id := 1, completed_chapters := [],
        total_chapters := 2, percentage := 0 } :=
  (getProgress_spec dbShifted 7 2).1 (by decide)



/-- Claim C3 witness: score 79 is rejected with the state unchanged, score
80 is accepted. -/
theorem validateByScore_spec_witness :
    ((79 : Int) < 80 ∧ validateChapter dbTwoChap 1 1 7 79 = (.scoreTooLow, dbTwoChap))
    ∧ ((80 : Int) ≤ 80 ∧ (validateChapter dbTwoChap 1 1 7 80).1 = .ok) :=
  ⟨⟨by decide, (validateByScore_spec dbTwoChap 1 1 7 79).1 (by decide)⟩,
   ⟨by decide, ((validateByScore_spec dbTwoChap 1 1 7 80).2 (by decide)).1⟩⟩

/-- Claim C10: resubmitting over an existing submission rewrites only the
link, the status (back to PENDING) and the timestamp of the targeted row;
every id, owner, course, chapter, assigned mentor and stored review comment
in the table — including those of the targeted row — is exactly as before. -/
theorem updateSubmission_frame (db : DB) (submissionId userId : Nat) (link : String) (now : Nat) :
    ((updateSubmission db submissionId userId link now).2).submissions.map
        (fun s => (s.id, s.user_id, s.course_id, s.chapter_id, s.mentor_id, s.mentor_comment))
      = db.submissions.map
        (fun s => (s.id, s.user_id, s.course_id, s.chapter_id, s.mentor_id, s.mentor_comment))
    ∧ ∀ s ∈ ((updateSubmission db submissionId userId link now).2).submissions,
        s.id = submissionId → s.user_id = userId →
          s.link = link ∧ s.status = .PENDING ∧ s.updated_at = now := by
  by_cases hc : db.submissions.any (isOwnSubmission submissionId userId) = true
  · have heq : updateSubmission db submissionId userId link now
        = (.ok, { db with submissions := db.submissions.map (fun s =>
            if isOwnSubmission submissionId userId s then
              { s with link := link, status := .PENDING, updated_at := now }
            else s) }) := by
      unfold updateSubmission
      rw [if_pos hc]
    rw [heq]
    constructor
    · rw [List.map_map]
      apply List.map_congr_left
      intro s _
      unfold isOwnSubmission
      by_cases h1 : s.id = submissionId <;> by_cases h2 : s.user_id = userId <;>
        simp [Function.comp, h1, h2]
    · intro s hs hid huid
      obtain ⟨t, ht, rfl⟩ := List.mem_map.mp hs
      by_cases h : isOwnSubmission submissionId userId t = true
      · simp [h]
      · simp [h] at hid huid
        exact absurd (by simp [isOwnSubmission, hid, huid]) h
  · have heq : updateSubmission db submissionId userId link now = (.notFound, db) := by
      unfold updateSubmission
      rw [if_neg hc]
    rw [heq]
    refine ⟨rfl, ?_⟩
    intro s hs hid huid
    exact absurd (List.any_eq_true.mpr ⟨s, hs, by simp [isOwnSubmission, hid, huid]⟩) hc

/-- Claim C10 witness: concrete resubmission over an assigned submission
keeps every frame field. -/
theorem updateSubmission_frame_witness :
    ((updateSubmission dbAssign 3 7 "new" 8).2).submissions.map
        (fun s => (s.id, s.user_id, s.course_id, s.chapter_id, s.mentor_id, s.mentor_comment))
      = dbAssign.submissions.map
        (fun s => (s.id, s.user_id, s.course_id, s.chapter_id, s.mentor_id, s.mentor_comment)) :=
  (updateSubmission_frame dbAssign 3 7 "new" 8).1

/-- Claim C7: mentor assignment is an atomic compare-and-set on
`mentor_id = null` — the first call on an unassigned submission records the
mentor, and any call on a submission whose mentor is already set fails and
leaves the whole state (in particular `mentor_id`) unchanged. -/
theorem assign_at_most_once (db : DB) (submissionId mentorId : Nat) (s : Submission)
    (hs : findSubmission db submissionId = some s)
    (huniq : ∀ t ∈ db.submissions, t.id = submissionId → t = s) :
    (s.mentor_id = none →
        (assignMentor db submissionId mentorId).1 = .ok
        ∧ findSubmission (assignMentor db submissionId mentorId).2 submissionId
            = some { s with mentor_id := some mentorId })
    ∧ (∀ m, s.mentor_id = some m →
        assignMentor db submissionId mentorId = (.conflict, db)) := by
  have hmem : s ∈ db.submissions := List.mem_of_find?_eq_some hs
  have hid : s.id = submissionId := by
    have h := List.find?_some hs
    simpa [isSubmissionId] using h
  constructor
  · intro hnone
    have hun : isUnassigned submissionId s = true := by
      simp [isUnassigned, hid, hnone]
    have hc : db.submissions.any (isUnassigned submissionId) = true :=
      List.any_eq_true.mpr ⟨s, hmem, hun⟩
    have heq : assignMentor db submissionId mentorId
        = (.ok, { db with submissions := db.submissions.map (fun t =>
            if isUnassigned submissionId t then { t with mentor_id := some mentorId }
            else t) }) := by
      unfold assignMentor
      rw [if_pos hc]
    rw [heq]
    refine ⟨rfl, ?_⟩
    show (db.submissions.map _).find? (isSubmissionId submissionId) = _
    rw [find?_map_pres]
    · rw [show db.submissions.find? (isSubmissionId submissionId) = some s from hs]
      simp [hun]
    · intro t
      unfold isUnassigned isSubmissionId
      by_cases h1 : t.id = submissionId <;> by_cases h2 : t.mentor_id = none <;>
        simp [h1, h2]
  · intro m hm
    have hfalse : db.submissions.any (isUnassigned submissionId) = false := by
      rw [List.any_eq_false]
      intro t ht
      by_cases h1 : t.id = submissionId
      · have hts : t = s := huniq t ht h1
        subst hts
        simp [isUnassigned, hm]
      · simp [isUnassigned, h1]
    unfold assignMentor
    rw [hfalse]
    simp

/-- Claim C7 witness: the first claim on submission 3 succeeds and stores
mentor 9; a second claim by mentor 11 fails and changes nothing. -/
theorem assign_at_most_once_witness :
    ((assignMentor dbAssign 3 9).1 = .ok
      ∧ findSubmission (assignMentor dbAssign 3 9).2 3
          = some { id := 3, user_id := 7, course_id := 1, chapter_id := 2, link := "w",
                   status := .PENDING, mentor_id := some 9, mentor_comment := none,
                   updated_at := 0 })
    ∧ assignMentor (assignMentor dbAssign 3 9).2 3 11
        = (.conflict, (assignMentor dbAssign 3 9).2) := by
  constructor
  · exact (assign_at_most_once dbAssign 3 9
      { id := 3, user_id := 7, course_id := 1, chapter_id := 2, link := "w",
        status := .PENDING, mentor_id := none, mentor_comment := none, updated_at := 0 }
      (by decide) (by decide)).1 rfl
  · exact (assign_at_most_once (assignMentor dbAssign 3 9).2 3 11
      { id := 3, user_id := 7, course_id := 1, chapter_id := 2, link := "w",
        status := .PENDING, mentor_id := some 9, mentor_comment := none, updated_at := 0 }
      (by decide) (by decide)).2 9 rfl



/-- Claim C5, amended: the reported percentage always equals the rounded
ratio of the stored completed-chapters array length to the chapter count
(0 when the course has no chapters), and it stays within [0, 100] whenever
that array is no longer than the chapter list — duplicate entries pushed by
re-validation can drive it above 100. -/
theorem getProgress_percentage_spec (db : DB) (userId courseId : Nat) :
    ((getProgress db userId courseId).percentage
        = if totalChapters db courseId > 0 then
            jsRound (100 * (getProgress db userId courseId).completed_chapters.length)
              (totalChapters db courseId)
          else 0)
    ∧ (totalChapters db courseId = 0 → (getProgress db userId courseId).percentage = 0)
    ∧ ((getProgress db userId courseId).completed_chapters.length ≤ totalChapters db courseId →
        (getProgress db userId courseId).percentage ≤ 100) := by
  cases hp : findProgress db userId courseId with
  | none =>
    refine ⟨?_, ?_, ?_⟩
    · rcases Nat.eq_zero_or_pos (totalChapters db courseId) with h | h
      · simp [getProgress, hp, h]
      · simp [getProgress, hp, h, jsRound_zero _ h]
    · intro h
      simp [getProgress, hp]
    · intro h
      simp [getProgress, hp]
  | some p =>
    refine ⟨by simp [getProgress, hp], ?_, ?_⟩
    · intro h
      simp [getProgress, hp, h]
    · intro h
      rcases Nat.eq_zero_or_pos (totalChapters db courseId) with h0 | h0
      · simp [getProgress, hp, h0]
      · have hlen : p.completed_chapters.length ≤ totalChapters db courseId := by
          simpa [getProgress, hp] using h
        have hb := jsRound_le_100 p.completed_chapters.length (totalChapters db courseId) hlen h0
        simpa [getProgress, hp, h0] using hb

/-- Claim C5 witness: at a stored record with no duplicates the percentage
is within the scale. -/
theorem getProgress_percentage_spec_witness :
    (getProgress dbReview 7 1).completed_chapters.length ≤ totalChapters dbReview 1
    ∧ (getProgress dbReview 7 1).percentage ≤ 100 :=
  ⟨by decide, (getProgress_percentage_spec dbReview 7 1).2.2 (by decide)⟩

/-- Claim C2, amended: with the course present and the user found by email,
a repeated enrolment fails with the already-enrolled error and changes
nothing; a first enrolment succeeds, adds the course to the user's enrolled
set and increments the course's enrolled count by exactly one — but through
two sequential writes, so a storage failure of the counter write leaves the
user enrolled with the counter unchanged (partial state). -/
theorem enroll_spec (db : DB) (courseId : Nat) (email : String) (u : UserRec) (c : Course)
    (hc : findCourse db courseId = some c) (hu : findUserByEmail db email = some u) :
    (courseId ∈ u.enrolled_courses →
        enroll db courseId email false = (.alreadyEnrolled, db))
    ∧ (courseId ∉ u.enrolled_courses →
        (enroll db courseId email false).1 = .enrolled
        ∧ (findUserByEmail (enroll db courseId email false).2 email).map
            (fun v => v.enrolled_courses) = some (u.enrolled_courses ++ [courseId])
        ∧ (findCourse (enroll db courseId email false).2 courseId).map
            (fun d => d.enrolled_count) = some (c.enrolled_count + 1))
    ∧ (courseId ∉ u.enrolled_courses →
        (enroll db courseId email true).1 = .storageFailure
        ∧ (findUserByEmail (enroll db courseId email true).2 email).map
            (fun v => v.enrolled_courses) = some (u.enrolled_courses ++ [courseId])
        ∧ (findCourse (enroll db courseId email true).2 courseId).map
            (fun d => d.enrolled_count) = some c.enrolled_count) := by
  have hcid : isCourseId courseId c = true := List.find?_some hc
  have huid : isUserId u.id u = true := by simp [isUserId]
  have hpfEmail : ∀ v : UserRec,
      isEmail email (if isUserId u.id v then
        { v with enrolled_courses := v.enrolled_courses ++ [courseId] } else v)
        = isEmail email v := by
    intro v
    unfold isUserId isEmail
    by_cases h : v.id = u.id <;> simp [h]
  have hpfCourse : ∀ d : Course,
      isCourseId courseId (if isCourseId courseId d then
        { d with enrolled_count := d.enrolled_count + 1 } else d)
        = isCourseId courseId d := by
    intro d
    unfold isCourseId
    by_cases h : d.id = courseId <;> simp [h]
  have hfu1 : (db.users.map (fun v => if isUserId u.id v then
      { v with enrolled_courses := v.enrolled_courses ++ [courseId] } else v)).find?
        (isEmail email)
      = some { u with enrolled_courses := u.enrolled_courses ++ [courseId] } := by
    rw [find?_map_pres _ _ _ hpfEmail,
        show db.users.find? (isEmail email) = some u from hu]
    simp [huid]
  have hfc2 : (db.courses.map (fun d => if isCourseId courseId d then
      { d with enrolled_count := d.enrolled_count + 1 } else d)).find? (isCourseId courseId)
      = some { c with enrolled_count := c.enrolled_count + 1 } := by
    rw [find?_map_pres _ _ _ hpfCourse,
        show db.courses.find? (isCourseId courseId) = some c from hc]
    simp [hcid]
  refine ⟨fun hin => ?_, fun hout => ?_, fun hout => ?_⟩
  · simp only [enroll, hc, hu]
    rw [if_pos hin]
  · have heqF : enroll db courseId email false
        = (.enrolled,
            { db with
              users := db.users.map (fun v => if isUserId u.id v then
                { v with enrolled_courses := v.enrolled_courses ++ [courseId] } else v),
              courses := db.courses.map (fun d => if isCourseId courseId d then
                { d with enrolled_count := d.enrolled_count + 1 } else d) }) := by
      simp only [enroll, hc, hu]
      simp [hout]
    rw [heqF]
    refine ⟨rfl, ?_, ?_⟩
    · show ((db.users.map _).find? (isEmail email)).map _ = _
      rw [hfu1]
      rfl
    · show ((db.courses.map _).find? (isCourseId courseId)).map _ = _
      rw [hfc2]
      rfl
  · have heqT : enroll db courseId email true
        = (.storageFailure,
            { db with
              users := db.users.map (fun v => if isUserId u.id v then
                { v with enrolled_courses := v.enrolled_courses ++ [courseId] } else v) }) := by
      simp only [enroll, hc, hu]
      simp [hout]
    rw [heqT]
    refine ⟨rfl, ?_, ?_⟩
    · show ((db.users.map _).find? (isEmail email)).map _ = _
      rw [hfu1]
      rfl
    · show (db.courses.find? (isCourseId courseId)).map _ = _
      rw [show db.courses.find? (isCourseId courseId) = some c from hc]
      rfl

/-- Claim C2 witness: a fresh enrolment at the concrete state succeeds, the
user's enrolled set gains course 1 and the counter moves from 0 to 1. -/
theorem enroll_spec_witness :
    (enroll dbOneCourse 1 "a" false).1 = .enrolled
    ∧ (findUserByEmail (enroll dbOneCourse 1 "a" false).2 "a").map
        (fun v => v.enrolled_courses) = some [1]
    ∧ (findCourse (enroll dbOneCourse 1 "a" false).2 1).map
        (fun d => d.enrolled_count) = some 1 :=
  (enroll_spec dbOneCourse 1 "a"
      { id := 5, email := "a", enrolled_courses := [] }
      { id := 1, chapters := [10], enrolled_count := 0 }
      (by decide) (by decide)).2.1 (by decide)

end AiBoost
